import Mathlib

/-!
Verification development for the StarBot live-room monitor
(`starbot/core/room.py`).

The monitor is embedded shallowly:

* the external counter/time-series store (the `redis` module of the
  repository, not part of the sources at hand) is modelled from the spec
  as a record of per-room counters, association lists for per-user
  counters and sorted sets, and plain lists for time series;
* each event handler of `room.py` (`on_danmu`, `on_gift`, `on_sc`,
  `on_guard`, `live_on`, `live_off`, `on_link`) becomes a pure function
  from the event payload, the current time and the store state to a new
  store state plus a trace of outward effects (notifications, the
  archive-and-reset step);
* Python float formatting `"{:.Nf}".format` and `round(x, N)` are both
  modelled as exact rational rounding to `N` decimals with ties to even;
* metadata-client responses (`get_room_info`, `get_room_play_info`,
  `get_user_info`) are parameters of the handlers.
-/

namespace StarBot

/-- Truthiness of a Python `Optional[str]`: `None` and `""` are falsy. -/
def pyTruthyStr : Option String → Bool
  | none => false
  | some s => s ≠ ""

/-- Truthiness of a Python `Optional[int]`: `None` and `0` are falsy. -/
def pyTruthyInt : Option Int → Bool
  | none => false
  | some n => n ≠ 0

/-- Round a rational to the nearest integer, ties to even, as Python
`round` and `"{:.Nf}".format` do on the presented value. -/
def rndHalfEven (x : ℚ) : ℤ :=
  let f : ℤ := ⌊x⌋
  let frac : ℚ := x - (f : ℚ)
  if frac < 1/2 then f
  else if 1/2 < frac then f + 1
  else if f % 2 = 0 then f else f + 1

/-- `pyRoundTo d x` models Python `float("{:.df}".format(x))` (and
`round(x, d)`): round to `d` decimal digits, ties to even. -/
def pyRoundTo (d : ℕ) (x : ℚ) : ℚ := (rndHalfEven (x * 10 ^ d) : ℚ) / 10 ^ d

/-- Modelled from the spec: StatsStore counter increment keyed by user
(`(room, metric, user) → numeric accumulator`).  Stored as an
association list; an absent key starts from the increment itself. -/
def incrAssoc {β : Type} [Add β] (l : List (ℤ × β)) (uid : ℤ) (v : β) :
    List (ℤ × β) :=
  match l with
  | [] => [(uid, v)]
  | (u, c) :: rest =>
      if u = uid then (u, c + v) :: rest else (u, c) :: incrAssoc rest uid v

/-- Modelled from the spec: lookup in a `(timestamp, value)` snapshot
table (StatsStore existence/get for session-start snapshots). -/
def lookupAssoc {β : Type} (l : List (ℤ × β)) (k : ℤ) : Option β :=
  match l with
  | [] => none
  | (u, c) :: rest => if u = k then some c else lookupAssoc rest k

/-- Modelled from the spec: store a `(timestamp, value)` snapshot,
overwriting any previous value at the same key. -/
def setAssoc {β : Type} (l : List (ℤ × β)) (k : ℤ) (v : β) :
    List (ℤ × β) :=
  match l with
  | [] => [(k, v)]
  | (u, c) :: rest =>
      if u = k then (u, v) :: rest else (u, c) :: setAssoc rest k v

/-- Modelled from the spec: sorted-set range in descending order of
value (`rev_range…` store calls); ties broken by a store-defined stable
order, which no property here depends on. -/
def sortByValDesc {β : Type} [LinearOrder β] (l : List (ℤ × β)) :
    List (ℤ × β) :=
  List.insertionSort (fun a b => b.2 ≤ a.2) l

/-- Modelled from the spec: `rev_range…(room, 0, n - 1)` returns the top
`n` entries in descending order of value. -/
def revRange {β : Type} [LinearOrder β] (l : List (ℤ × β)) (n : ℕ) :
    List (ℤ × β) :=
  (sortByValDesc l).take n

/-- One member of the cross-session mystery-box profit history: keyed by
`(session start time, uid, uname)`, scored by the session profit. -/
structure BoxRecord where
  startTime : ℤ
  uid : ℤ
  uname : String
  profit : ℚ
  deriving DecidableEq, Repr

/-- Modelled from the spec: 0-based ascending rank of a score inside the
historical ranked set (`rank_box_profit_record`): the number of entries
with a strictly smaller score. -/
def rankOfScore (l : List BoxRecord) (score : ℚ) : ℕ :=
  (l.filter (fun r => r.profit < score)).length

/-- The external store state, one room implicit: every key of the
`redis` module that `room.py` touches, modelled from the spec's
StatsStore contract (counters, per-user association lists, time-series
lists, snapshot tables, and the global box-profit history). -/
structure RedisState where
  liveStatus : ℕ
  liveStartTime : ℤ
  liveEndTime : ℤ
  fansCountSnap : List (ℤ × ℤ)
  fansMedalCountSnap : List (ℤ × ℤ)
  guardCountSnap : List (ℤ × ℤ)
  roomDanmuCount : ℕ
  userDanmuCount : List (ℤ × ℕ)
  roomDanmu : List String
  roomDanmuTime : List (ℤ × ℕ)
  roomGiftProfit : ℚ
  userGiftProfit : List (ℤ × ℚ)
  roomGiftTime : List (ℤ × ℚ)
  roomBoxCount : ℤ
  userBoxCount : List (ℤ × ℤ)
  roomBoxProfit : ℚ
  userBoxProfit : List (ℤ × ℚ)
  roomBoxProfitRecord : List ℚ
  roomBoxTime : List (ℤ × ℤ)
  roomScProfit : ℚ
  userScProfit : List (ℤ × ℚ)
  roomScTime : List (ℤ × ℚ)
  roomCaptainCount : ℤ
  roomCommanderCount : ℤ
  roomGovernorCount : ℤ
  userCaptainCount : List (ℤ × ℤ)
  userCommanderCount : List (ℤ × ℤ)
  userGovernorCount : List (ℤ × ℤ)
  roomGuardTime : List (ℤ × ℤ)
  boxProfitHistory : List BoxRecord
  deriving DecidableEq, Repr

/-- Modelled from the spec: `redis.reset_data` clears every per-session
counter, per-user table and time series of the room.  Session metadata
(status, start/end time), the start-time snapshots and the cross-session
history are not per-session counters and survive. -/
def resetData (s : RedisState) : RedisState :=
  { s with
    roomDanmuCount := 0
    userDanmuCount := []
    roomDanmu := []
    roomDanmuTime := []
    roomGiftProfit := 0
    userGiftProfit := []
    roomGiftTime := []
    roomBoxCount := 0
    userBoxCount := []
    roomBoxProfit := 0
    userBoxProfit := []
    roomBoxProfitRecord := []
    roomBoxTime := []
    roomScProfit := 0
    userScProfit := []
    roomScTime := []
    roomCaptainCount := 0
    roomCommanderCount := 0
    roomGovernorCount := 0
    userCaptainCount := []
    userCommanderCount := []
    userGovernorCount := []
    roomGuardTime := [] }

/-- Payload of a `DANMU_MSG` event as `on_danmu` reads it:
`uid = info[2][0]`, `content = info[1]`, and whether `info[0][13]` is a
string (the word-cloud eligibility marker). -/
structure DanmuEvent where
  uid : ℤ
  content : String
  markerIsStr : Bool
  deriving DecidableEq, Repr

/-- `on_danmu` (`room.py`, `DANMU_MSG` handler): increment the room and
per-user chat counters by 1; when the marker field is a string, also log
the content and bump the per-timestamp chat bucket. -/
def on_danmu (ev : DanmuEvent) (now : ℤ) (s : RedisState) : RedisState :=
  let s := { s with
    roomDanmuCount := s.roomDanmuCount + 1
    userDanmuCount := incrAssoc s.userDanmuCount ev.uid 1 }
  if ev.markerIsStr then
    { s with
      roomDanmu := s.roomDanmu ++ [ev.content]
      roomDanmuTime := incrAssoc s.roomDanmuTime now 1 }
  else s

/-- Payload of a `SEND_GIFT` event as `on_gift` reads it; `blindGift`
records whether the `blind_gift` field is not `None`. -/
structure GiftEvent where
  uid : ℤ
  num : ℤ
  discountPrice : ℤ
  totalCoin : ℤ
  blindGift : Bool
  deriving DecidableEq, Repr

/-- `on_gift` (`room.py`, `SEND_GIFT` handler).  Gift revenue
`price = float("{:.1f}".format((discount_price / 1000) * num))` is
recorded in the room, per-user and time-series gift counters only when
both `total_coin` and `discount_price` are nonzero.  When the event
carries a blind-gift marker, the box section additionally accumulates
the box count by `num`, the box profit
`float("{:.1f}".format(gift_price * gift_num - box_price))` per room and
per user, appends the running room total to the profit record, and
bumps the box time bucket. -/
def on_gift (ev : GiftEvent) (now : ℤ) (s : RedisState) : RedisState :=
  let price : ℚ := pyRoundTo 1 (((ev.discountPrice : ℚ) / 1000) * (ev.num : ℚ))
  let s :=
    if ev.totalCoin ≠ 0 ∧ ev.discountPrice ≠ 0 then
      { s with
        roomGiftProfit := s.roomGiftProfit + price
        userGiftProfit := incrAssoc s.userGiftProfit ev.uid price
        roomGiftTime := incrAssoc s.roomGiftTime now price }
    else s
  if ev.blindGift then
    let boxPrice : ℚ := (ev.totalCoin : ℚ) / 1000
    let giftNum : ℤ := ev.num
    let giftPrice : ℚ := (ev.discountPrice : ℚ) / 1000
    let profit : ℚ := pyRoundTo 1 (giftPrice * (giftNum : ℚ) - boxPrice)
    let boxProfitAfter : ℚ := s.roomBoxProfit + profit
    { s with
      roomBoxCount := s.roomBoxCount + giftNum
      userBoxCount := incrAssoc s.userBoxCount ev.uid giftNum
      roomBoxProfit := boxProfitAfter
      userBoxProfit := incrAssoc s.userBoxProfit ev.uid profit
      roomBoxProfitRecord := s.roomBoxProfitRecord ++ [boxProfitAfter]
      roomBoxTime := incrAssoc s.roomBoxTime now 1 }
  else s

/-- Payload of a `SUPER_CHAT_MESSAGE` event as `on_sc` reads it. -/
structure ScEvent where
  uid : ℤ
  price : ℚ
  deriving DecidableEq, Repr

/-- `on_sc` (`room.py`, `SUPER_CHAT_MESSAGE` handler): add `price` to
the room and per-user SC counters and to the SC time series. -/
def on_sc (ev : ScEvent) (now : ℤ) (s : RedisState) : RedisState :=
  { s with
    roomScProfit := s.roomScProfit + ev.price
    userScProfit := incrAssoc s.userScProfit ev.uid ev.price
    roomScTime := incrAssoc s.roomScTime now ev.price }

/-- The three canonical membership tiers of the `type_mapping` table. -/
inductive GuardLevel
  | captain
  | commander
  | governor
  deriving DecidableEq, Repr

/-- The fixed `type_mapping` table of `on_guard`; a raw tier label
outside the table has no entry (a Python `KeyError`). -/
def typeMapping (label : String) : Option GuardLevel :=
  if label = "舰长" then some .captain
  else if label = "提督" then some .commander
  else if label = "总督" then some .governor
  else none

/-- Payload of a `GUARD_BUY` event as `on_guard` reads it:
`gift_name` is the raw tier label, `num` the purchased months. -/
structure GuardEvent where
  uid : ℤ
  giftName : String
  month : ℤ
  deriving DecidableEq, Repr

/-- Per-tier room counter increment (`incr_room_guard_count`). -/
def incrRoomGuard (lv : GuardLevel) (month : ℤ) (s : RedisState) :
    RedisState :=
  match lv with
  | .captain => { s with roomCaptainCount := s.roomCaptainCount + month }
  | .commander => { s with roomCommanderCount := s.roomCommanderCount + month }
  | .governor => { s with roomGovernorCount := s.roomGovernorCount + month }

/-- Per-tier per-user counter increment (`incr_user_guard_count`). -/
def incrUserGuard (lv : GuardLevel) (uid : ℤ) (month : ℤ)
    (s : RedisState) : RedisState :=
  match lv with
  | .captain => { s with userCaptainCount := incrAssoc s.userCaptainCount uid month }
  | .commander => { s with userCommanderCount := incrAssoc s.userCommanderCount uid month }
  | .governor => { s with userGovernorCount := incrAssoc s.userGovernorCount uid month }

/-- `on_guard` (`room.py`, `GUARD_BUY` handler).  The raw label is
looked up in `type_mapping` inside the first store call, so an unknown
label raises `KeyError` (here: `Except.error ()`) before any counter or
time-series update; a known label increments the tier counters by
`month` and bumps the guard time bucket. -/
def on_guard (ev : GuardEvent) (now : ℤ) (s : RedisState) :
    Except Unit RedisState :=
  match typeMapping ev.giftName with
  | none => .error ()
  | some lv =>
      let s := incrRoomGuard lv ev.month s
      let s := incrUserGuard lv ev.uid ev.month s
      .ok { s with roomGuardTime := incrAssoc s.roomGuardTime now ev.month }

/-- Modelled from the spec: a single on/off notification switch of a
destination (`live_on`, `live_off`, `dynamic_update` configs). -/
structure SwitchConf where
  enabled : Bool

/-- Modelled from the spec: the per-destination report configuration
(`model.py` is not among the sources at hand).  Boolean fields enable
report items; the `…_ranking` numeric fields are the requested ranking
sizes, falsy when `0` exactly as in Python. -/
structure LiveReportConf where
  enabled : Bool
  danmu : Bool
  danmu_ranking : ℕ
  danmu_diagram : Bool
  danmu_cloud : Bool
  box : Bool
  box_ranking : ℕ
  box_profit_ranking : ℕ
  box_diagram : Bool
  box_profit_diagram : Bool
  gift : Bool
  gift_ranking : ℕ
  gift_diagram : Bool
  sc : Bool
  sc_ranking : ℕ
  sc_diagram : Bool
  guard : Bool
  guard_list : Bool
  guard_diagram : Bool
  fans_change : Bool
  fans_medal_change : Bool
  guard_change : Bool

/-- Modelled from the spec: one push destination of a broadcaster. -/
structure PushTarget where
  live_on : SwitchConf
  live_off : SwitchConf
  dynamic_update : SwitchConf
  live_report : LiveReportConf

/-- The report-item attribute names that `room.py` passes to
`__any_live_report_item_enabled` by string. -/
inductive ReportItem
  | danmu | danmu_ranking | danmu_diagram | danmu_cloud
  | box | box_ranking | box_profit_ranking | box_diagram | box_profit_diagram
  | gift | gift_ranking | gift_diagram
  | sc | sc_ranking | sc_diagram
  | guard | guard_list | guard_diagram
  | fans_change | fans_medal_change | guard_change
  deriving DecidableEq, Repr

/-- Python truthiness of `live_report.__getattribute__(attribute)`:
booleans stand for themselves, ranking sizes are truthy when nonzero. -/
def itemTruthy (c : LiveReportConf) : ReportItem → Bool
  | .danmu => c.danmu
  | .danmu_ranking => c.danmu_ranking ≠ 0
  | .danmu_diagram => c.danmu_diagram
  | .danmu_cloud => c.danmu_cloud
  | .box => c.box
  | .box_ranking => c.box_ranking ≠ 0
  | .box_profit_ranking => c.box_profit_ranking ≠ 0
  | .box_diagram => c.box_diagram
  | .box_profit_diagram => c.box_profit_diagram
  | .gift => c.gift
  | .gift_ranking => c.gift_ranking ≠ 0
  | .gift_diagram => c.gift_diagram
  | .sc => c.sc
  | .sc_ranking => c.sc_ranking ≠ 0
  | .sc_diagram => c.sc_diagram
  | .guard => c.guard
  | .guard_list => c.guard_list
  | .guard_diagram => c.guard_diagram
  | .fans_change => c.fans_change
  | .fans_medal_change => c.fans_medal_change
  | .guard_change => c.guard_change

/-- `__any_live_report_item_enabled` for a single attribute name. -/
def anyLiveReportItemEnabled (targets : List PushTarget)
    (item : ReportItem) : Bool :=
  targets.any fun t => t.live_report.enabled && itemTruthy t.live_report item

/-- `__any_live_report_item_enabled` for a list of attribute names. -/
def anyLiveReportItemsEnabled (targets : List PushTarget)
    (items : List ReportItem) : Bool :=
  items.any (anyLiveReportItemEnabled targets)

/-- `__any_live_on_enabled`. -/
def anyLiveOnEnabled (targets : List PushTarget) : Bool :=
  targets.any fun t => t.live_on.enabled

/-- `__any_live_off_enabled`. -/
def anyLiveOffEnabled (targets : List PushTarget) : Bool :=
  targets.any fun t => t.live_off.enabled

/-- `__any_live_report_enabled`. -/
def anyLiveReportEnabled (targets : List PushTarget) : Bool :=
  targets.any fun t => t.live_report.enabled

/-- Python `max(map(f, targets))` over the (nonempty in use) target
list; on natural sizes the `0` base of the fold does not change it. -/
def maxOver (targets : List PushTarget) (f : PushTarget → ℕ) : ℕ :=
  (targets.map f).foldr max 0

/-- Global configuration values and external resolver services that the
handlers consult (`config.get`, `timestamp_format` and the batch
identity resolver of §6, the latter two modelled from the spec because
their defining module is not among the sources at hand;
`resolve u = (uname, face)` pointwise, order preserved by `List.map`). -/
structure Env where
  onlyConnectNecessaryRoom : Bool
  onlyHandleNecessaryEvent : Bool
  upDisconnectConnectInterval : ℤ
  upDisconnectConnectMessage : Option String
  tsFmt : ℤ → String
  resolve : ℤ → String × String

/-- The metadata-client responses used by the handlers: fields of
`get_room_info` (anchor, relation, medal, guard and room blocks) plus
the `live_status` of `get_room_play_info`. -/
structure RoomInfo where
  liveStatus : ℕ
  anchorUname : String
  attention : ℤ
  medalFansclub : Option ℤ
  guardCount : ℤ
  title : String
  cover : String
  liveStartTime : ℤ

/-- The identity of one monitored broadcaster as `room.py` holds it:
`uid`, push destinations, and lazily resolved `uname` / `room_id`. -/
structure Up where
  uid : ℤ
  targets : List PushTarget
  uname : Option String
  room_id : Option ℤ

/-- The per-room slice of `__generate_live_report_param` that is only
present when a fan/medal/guard delta item is enabled. -/
structure DeltaFields where
  fans_before : ℤ
  fans_after : ℤ
  fans_medal_before : ℤ
  fans_medal_after : ℤ
  guard_before : ℤ
  guard_after : ℤ
  deriving DecidableEq, Repr

/-- The three parallel arrays a ranking block contributes when it is
present (`…_faces` / `…_unames` / `…_counts`). -/
structure RankingFields (β : Type) where
  faces : List String
  unames : List String
  counts : List β
  deriving DecidableEq, Repr

/-- The report mapping built by `__generate_live_report_param`.
`Option` fields model dictionary keys that are only added
conditionally; `none` is key absence, not an empty value. -/
structure LiveReportParam where
  uname : String
  room_id : ℤ
  start_timestamp : ℤ
  end_timestamp : ℤ
  start_time : String
  end_time : String
  hour : ℤ
  minute : ℤ
  second : ℤ
  deltas : Option DeltaFields
  danmu_count : ℕ
  danmu_person_count : ℕ
  danmu_diagram : List (ℤ × ℕ)
  box_count : ℤ
  box_person_count : ℕ
  box_profit : ℚ
  box_beat_percent : ℚ
  box_profit_diagram : List ℚ
  box_diagram : List (ℤ × ℤ)
  gift_profit : ℚ
  gift_person_count : ℕ
  gift_diagram : List (ℤ × ℚ)
  sc_profit : ℚ
  sc_person_count : ℕ
  sc_diagram : List (ℤ × ℚ)
  captain_count : ℤ
  commander_count : ℤ
  governor_count : ℤ
  guard_diagram : List (ℤ × ℤ)
  danmu_ranking : Option (RankingFields ℕ)
  box_ranking : Option (RankingFields ℤ)
  box_profit_ranking : Option (RankingFields ℚ)
  gift_ranking : Option (RankingFields ℚ)
  sc_ranking : Option (RankingFields ℚ)
  captain_infos : Option (List (String × String × ℤ))
  commander_infos : Option (List (String × String × ℤ))
  governor_infos : Option (List (String × String × ℤ))
  all_danmu : Option (List String)
  deriving DecidableEq, Repr

/-- One ranking block of `__generate_live_report_param`: only when the
item is enabled on some destination, fetch the top `max(requested
sizes)` entries; only when the fetch is nonempty, add the three parallel
arrays (`get_unames_and_faces_by_uids` resolves in input order). -/
def rankingBlock {β : Type} [LinearOrder β] (env : Env)
    (targets : List PushTarget) (item : ReportItem)
    (size : PushTarget → ℕ) (table : List (ℤ × β)) :
    Option (RankingFields β) :=
  if anyLiveReportItemEnabled targets item then
    let rankingCount := maxOver targets size
    let fetched := revRange table rankingCount
    if fetched ≠ [] then
      some
        { faces := fetched.map fun p => (env.resolve p.1).2
          unames := fetched.map fun p => (env.resolve p.1).1
          counts := fetched.map Prod.snd }
    else none
  else none

/-- One tier block of the guard roster: the full descending per-user
list zipped into `(face, uname, months)` triples, absent when empty. -/
def guardInfosBlock (env : Env) (table : List (ℤ × ℤ)) :
    Option (List (String × String × ℤ)) :=
  let fetched := sortByValDesc table
  if fetched ≠ [] then
    some (fetched.map fun p => ((env.resolve p.1).2, (env.resolve p.1).1, p.2))
  else none

/-- `__generate_live_report_param` (`room.py`): assemble the session-end
report from the store and the metadata client, inserting this session
into the box-profit history on the way (`len` is read before the
insert, the rank after it). -/
def generateLiveReportParam (env : Env) (up : Up) (uname : String)
    (roomId : ℤ) (roomInfo : RoomInfo) (s : RedisState) :
    LiveReportParam × RedisState :=
  let startTime := s.liveStartTime
  let endTime := s.liveEndTime
  let seconds := endTime - startTime
  let minute0 := seconds.fdiv 60
  let second := seconds.fmod 60
  let hour := minute0.fdiv 60
  let minute := minute0.fmod 60
  let deltas : Option DeltaFields :=
    if anyLiveReportItemsEnabled up.targets
        [.fans_change, .fans_medal_change, .guard_change] then
      let fansCount := (lookupAssoc s.fansCountSnap startTime).getD (-1)
      let fansMedalCount := (lookupAssoc s.fansMedalCountSnap startTime).getD (-1)
      let guardCount := (lookupAssoc s.guardCountSnap startTime).getD (-1)
      let fansMedalCountAfter :=
        match roomInfo.medalFansclub with
        | none => 0
        | some v => v
      some
        { fans_before := fansCount
          fans_after := roomInfo.attention
          fans_medal_before := fansMedalCount
          fans_medal_after := fansMedalCountAfter
          guard_before := guardCount
          guard_after := roomInfo.guardCount }
    else none
  let boxProfit := s.roomBoxProfit
  let count := s.boxProfitHistory.length
  let history := s.boxProfitHistory ++
    [{ startTime := startTime, uid := up.uid, uname := uname,
       profit := boxProfit }]
  let rank := rankOfScore history boxProfit
  let percent : ℚ :=
    if count ≠ 0 then
      pyRoundTo 2 (pyRoundTo 4 ((rank : ℚ) / (count : ℚ)) * 100)
    else 100
  let param : LiveReportParam :=
    { uname := uname
      room_id := roomId
      start_timestamp := startTime
      end_timestamp := endTime
      start_time := env.tsFmt startTime
      end_time := env.tsFmt endTime
      hour := hour
      minute := minute
      second := second
      deltas := deltas
      danmu_count := s.roomDanmuCount
      danmu_person_count := s.userDanmuCount.length
      danmu_diagram := s.roomDanmuTime
      box_count := s.roomBoxCount
      box_person_count := s.userBoxCount.length
      box_profit := boxProfit
      box_beat_percent := percent
      box_profit_diagram := s.roomBoxProfitRecord
      box_diagram := s.roomBoxTime
      gift_profit := s.roomGiftProfit
      gift_person_count := s.userGiftProfit.length
      gift_diagram := s.roomGiftTime
      sc_profit := s.roomScProfit
      sc_person_count := s.userScProfit.length
      sc_diagram := s.roomScTime
      captain_count := s.roomCaptainCount
      commander_count := s.roomCommanderCount
      governor_count := s.roomGovernorCount
      guard_diagram := s.roomGuardTime
      danmu_ranking := rankingBlock env up.targets .danmu_ranking
        (fun t => t.live_report.danmu_ranking) s.userDanmuCount
      box_ranking := rankingBlock env up.targets .box_ranking
        (fun t => t.live_report.box_ranking) s.userBoxCount
      box_profit_ranking := rankingBlock env up.targets .box_profit_ranking
        (fun t => t.live_report.box_profit_ranking) s.userBoxProfit
      gift_ranking := rankingBlock env up.targets .gift_ranking
        (fun t => t.live_report.gift_ranking) s.userGiftProfit
      sc_ranking := rankingBlock env up.targets .sc_ranking
        (fun t => t.live_report.sc_ranking) s.userScProfit
      captain_infos :=
        if anyLiveReportItemEnabled up.targets .guard_list then
          guardInfosBlock env s.userCaptainCount
        else none
      commander_infos :=
        if anyLiveReportItemEnabled up.targets .guard_list then
          guardInfosBlock env s.userCommanderCount
        else none
      governor_infos :=
        if anyLiveReportItemEnabled up.targets .guard_list then
          guardInfosBlock env s.userGovernorCount
        else none
      all_danmu :=
        if anyLiveReportItemEnabled up.targets .danmu_cloud then
          some s.roomDanmu
        else none }
  (param, { s with boxProfitHistory := history })

/-- The outward effects a lifecycle handler can emit: the
archive-and-clear step of `accumulate_and_reset_data`, and the five
notification dispatches of `room.py`. -/
inductive Effect
  | accumulateAndReset
  | sendDisconnectMessage
  | sendLiveOnAt
  | sendLiveOn
  | sendLiveOff
  | sendLiveReport (param : LiveReportParam)
  deriving DecidableEq, Repr

/-- Payload of a `LIVE` event as `live_on` reads it: only the presence
(and value) of the `live_time` key inside `event["data"]` matters. -/
structure LiveEvent where
  liveTimeKey : Option ℤ
  deriving DecidableEq, Repr

/-- `live_on` (`room.py`, `LIVE` handler).  Nothing happens unless the
event carries a `live_time` key.  Otherwise the status is persisted as
Live and the elapsed-time heuristic decides: within the configured
interval of the last recorded end time, treat as an encoder reconnect
(optional reconnect message, nothing else); beyond it, snapshot start
metadata, run `accumulate_and_reset_data`, and dispatch the at-message
and the just-started notification.  Returns the updated broadcaster
name, store state and effect trace. -/
def live_on (env : Env) (roomInfo : RoomInfo) (now : ℤ) (ev : LiveEvent)
    (uname : String) (s : RedisState) :
    String × RedisState × List Effect :=
  if (ev.liveTimeKey).isSome then
    let uname := roomInfo.anchorUname
    let s := { s with liveStatus := 1 }
    let last := s.liveEndTime
    let isEncoderReconnect := now - last ≤ env.upDisconnectConnectInterval
    if isEncoderReconnect then
      (uname, s,
        if pyTruthyStr env.upDisconnectConnectMessage then
          [.sendDisconnectMessage]
        else [])
    else
      let liveStartTime := roomInfo.liveStartTime
      let fansCount := roomInfo.attention
      let fansMedalCount :=
        match roomInfo.medalFansclub with
        | none => 0
        | some v => v
      let guardCount := roomInfo.guardCount
      let s := { s with
        liveStartTime := liveStartTime
        fansCountSnap := setAssoc s.fansCountSnap liveStartTime fansCount
        fansMedalCountSnap :=
          setAssoc s.fansMedalCountSnap liveStartTime fansMedalCount
        guardCountSnap := setAssoc s.guardCountSnap liveStartTime guardCount }
      let s := resetData s
      (uname, s, [.accumulateAndReset, .sendLiveOnAt, .sendLiveOn])
  else (uname, s, [])

/-- `live_off` (`room.py`, `PREPARING` handler): persist status Off and
the end time, build the report, dispatch the ended notification and the
report. -/
def live_off (env : Env) (up : Up) (uname : String) (roomId : ℤ)
    (roomInfo : RoomInfo) (now : ℤ) (s : RedisState) :
    RedisState × List Effect :=
  let s1 := { s with liveStatus := 0, liveEndTime := now }
  let pr := generateLiveReportParam env up uname roomId roomInfo s1
  (pr.2, [.sendLiveOff, .sendLiveReport pr.1])

/-- `on_link` (`room.py`, `VERIFICATION_SUCCESSFUL` handler).  On the
first link only the reconnect flag is set.  On a reconnect, the
persisted status is compared with the freshly fetched play status; when
they differ the new status is persisted and the missing transition is
synthesized: now Live → `live_on` with `{"data": {"live_time": 0}}`,
previously Live → `live_off` with `{}`. -/
def on_link (env : Env) (up : Up) (uname : String) (roomId : ℤ)
    (isReconnect : Bool) (roomInfo : RoomInfo) (now : ℤ)
    (s : RedisState) : String × Bool × RedisState × List Effect :=
  if isReconnect then
    let lastStatus := s.liveStatus
    let nowStatus := roomInfo.liveStatus
    if nowStatus ≠ lastStatus then
      let s := { s with liveStatus := nowStatus }
      let r1 :=
        if nowStatus = 1 then
          live_on env roomInfo now { liveTimeKey := some 0 } uname s
        else (uname, s, [])
      let r2 :=
        if lastStatus = 1 then
          live_off env up r1.1 roomId roomInfo now r1.2.1
        else (r1.2.1, [])
      (r1.1, isReconnect, r2.1, r1.2.2 ++ r2.2)
    else (uname, isReconnect, s, [])
  else (uname, true, s, [])

/-- `get_user_info` response as `connect` reads it: the display name
and the `live_room` block (absent when the broadcaster has none). -/
structure UserInfo where
  name : String
  liveRoom : Option ℤ
  deriving DecidableEq, Repr

/-- The failure `connect` raises when the broadcaster has no broadcast
room (`LiveException` in the source). -/
inductive LiveErr
  | noLiveRoom
  deriving DecidableEq, Repr

/-- How far `connect` got: `skipped` = the resource-saving policy
declined to open the feed; `connected` = the feed connection was opened
and the handlers registered. -/
inductive ConnectOutcome
  | skipped (uname : String) (roomId : ℤ)
  | connected (uname : String) (roomId : ℤ)
  deriving DecidableEq, Repr

/-- Tail of `connect` after name/room resolution: the optional
resource-saving skip, then opening the connection and registering the
handlers. -/
def connectRest (env : Env) (targets : List PushTarget) (uname : String)
    (roomId : ℤ) : Except LiveErr ConnectOutcome :=
  if env.onlyConnectNecessaryRoom &&
      !(anyLiveOnEnabled targets || anyLiveOffEnabled targets ||
        anyLiveReportEnabled targets) then
    .ok (.skipped uname roomId)
  else
    .ok (.connected uname roomId)

/-- `connect` (`room.py`): when `not all([uname, room_id])`, resolve
them through the metadata client and raise if the broadcaster has no
broadcast room; otherwise (and after successful resolution) proceed to
the connection phase. -/
def connect (env : Env) (up : Up) (userInfo : UserInfo) :
    Except LiveErr ConnectOutcome :=
  if !(pyTruthyStr up.uname && pyTruthyInt up.room_id) then
    let uname := userInfo.name
    match userInfo.liveRoom with
    | none => .error .noLiveRoom
    | some rid => connectRest env up.targets uname rid
  else
    connectRest env up.targets (up.uname.getD "") (up.room_id.getD 0)

/-- The kinds of values `Up.__eq__` can be compared against. -/
inductive PyOperand
  | up (u : Up)
  | int (n : ℤ)
  | other

/-- `Up.__eq__` (`room.py`): uid equality against another `Up`, value
equality against an `int`, `False` against anything else. -/
def upEqPy (self : Up) : PyOperand → Bool
  | .up u => self.uid == u.uid
  | .int n => self.uid == n
  | .other => false

/-- `Up.__hash__` (`room.py`): `hash(self.uid)`, for any builtin
integer hash `h`. -/
def upHashPy (h : ℤ → ℤ) (self : Up) : ℤ := h self.uid

/-- Registration gate for the `DANMU_MSG` handler: registered unless
the global gate is on and no destination wants any chat item. -/
def danmuHandlerRegistered (env : Env) (targets : List PushTarget) : Bool :=
  !env.onlyHandleNecessaryEvent ||
    anyLiveReportItemsEnabled targets
      [.danmu, .danmu_ranking, .danmu_diagram, .danmu_cloud]

/-- A `DANMU_MSG` delivery: the handler body runs only when it was
registered. -/
def dispatchDanmu (env : Env) (targets : List PushTarget)
    (ev : DanmuEvent) (now : ℤ) (s : RedisState) : RedisState :=
  if danmuHandlerRegistered env targets then on_danmu ev now s else s

/-! Concrete fixtures used by witnesses and counterexamples. -/

/-- A store state with every counter at zero and every table empty. -/
def emptyRedis : RedisState :=
  { liveStatus := 0
    liveStartTime := 0
    liveEndTime := 0
    fansCountSnap := []
    fansMedalCountSnap := []
    guardCountSnap := []
    roomDanmuCount := 0
    userDanmuCount := []
    roomDanmu := []
    roomDanmuTime := []
    roomGiftProfit := 0
    userGiftProfit := []
    roomGiftTime := []
    roomBoxCount := 0
    userBoxCount := []
    roomBoxProfit := 0
    userBoxProfit := []
    roomBoxProfitRecord := []
    roomBoxTime := []
    roomScProfit := 0
    userScProfit := []
    roomScTime := []
    roomCaptainCount := 0
    roomCommanderCount := 0
    roomGovernorCount := 0
    userCaptainCount := []
    userCommanderCount := []
    userGovernorCount := []
    roomGuardTime := []
    boxProfitHistory := [] }

/-- A configuration with both resource-saving gates off, a 60 second
disconnect threshold and no reconnect message. -/
def envDefault : Env :=
  { onlyConnectNecessaryRoom := false
    onlyHandleNecessaryEvent := false
    upDisconnectConnectInterval := 60
    upDisconnectConnectMessage := none
    tsFmt := fun _ => ""
    resolve := fun _ => ("", "") }

/-- A report configuration with everything disabled. -/
def confOff : LiveReportConf :=
  { enabled := false
    danmu := false
    danmu_ranking := 0
    danmu_diagram := false
    danmu_cloud := false
    box := false
    box_ranking := 0
    box_profit_ranking := 0
    box_diagram := false
    box_profit_diagram := false
    gift := false
    gift_ranking := 0
    gift_diagram := false
    sc := false
    sc_ranking := 0
    sc_diagram := false
    guard := false
    guard_list := false
    guard_diagram := false
    fans_change := false
    fans_medal_change := false
    guard_change := false }

/-- A destination with every switch off. -/
def tgtOff : PushTarget :=
  { live_on := { enabled := false }
    live_off := { enabled := false }
    dynamic_update := { enabled := false }
    live_report := confOff }

/-- A broadcaster with no destinations and unresolved name/room. -/
def up0 : Up := { uid := 1, targets := [], uname := none, room_id := none }

/-- A metadata-client response for a room that is currently live. -/
def roomInfoLive : RoomInfo :=
  { liveStatus := 1
    anchorUname := "anchor"
    attention := 7
    medalFansclub := none
    guardCount := 2
    title := "t"
    cover := "c"
    liveStartTime := 900 }

/-- A mystery-box gift event: two gifts of discounted unit price 2000
bought through a box that cost 5000 coins in total. -/
def evC3 : GiftEvent :=
  { uid := 7, num := 2, discountPrice := 2000, totalCoin := 5000, blindGift := true }

/-- A store state whose last session lasted 3725 seconds. -/
def sDur : RedisState := { emptyRedis with liveStartTime := 100, liveEndTime := 3825 }

/-- Two broadcaster values sharing a uid but nothing else. -/
def up9a : Up := { uid := 42, targets := [], uname := some "a", room_id := some 5 }

/-- Second broadcaster value with uid 42; see `up9a`. -/
def up9b : Up := { uid := 42, targets := [tgtOff], uname := none, room_id := none }

/-- Ten chat events from exactly three distinct user ids. -/
def evsC5 : List (DanmuEvent × ℤ) :=
  [({ uid := 1, content := "a", markerIsStr := false }, 10),
   ({ uid := 1, content := "b", markerIsStr := false }, 11),
   ({ uid := 1, content := "c", markerIsStr := false }, 12),
   ({ uid := 1, content := "d", markerIsStr := false }, 13),
   ({ uid := 2, content := "e", markerIsStr := false }, 14),
   ({ uid := 2, content := "f", markerIsStr := false }, 15),
   ({ uid := 2, content := "g", markerIsStr := false }, 16),
   ({ uid := 3, content := "h", markerIsStr := false }, 17),
   ({ uid := 3, content := "i", markerIsStr := false }, 18),
   ({ uid := 3, content := "j", markerIsStr := false }, 19)]

/-! Helper lemmas about the chat handler and the per-user tables. -/

lemma on_danmu_roomDanmuCount (ev : DanmuEvent) (t : ℤ) (st : RedisState) :
    (on_danmu ev t st).roomDanmuCount = st.roomDanmuCount + 1 := by
  unfold on_danmu
  split <;> rfl

lemma on_danmu_userDanmuCount (ev : DanmuEvent) (t : ℤ) (st : RedisState) :
    (on_danmu ev t st).userDanmuCount = incrAssoc st.userDanmuCount ev.uid 1 := by
  unfold on_danmu
  split <;> rfl

lemma keys_incrAssoc {β : Type} [Add β] (l : List (ℤ × β)) (uid : ℤ) (v : β) :
    (incrAssoc l uid v).map Prod.fst =
      if uid ∈ l.map Prod.fst then l.map Prod.fst else l.map Prod.fst ++ [uid] := by
  induction l with
  | nil => simp [incrAssoc]
  | cons hd tl ih =>
      obtain ⟨u, c⟩ := hd
      by_cases h : u = uid
      · subst h
        simp [incrAssoc]
      · simp only [incrAssoc, if_neg h, List.map_cons]
        rw [ih]
        by_cases hm : uid ∈ tl.map Prod.fst <;> simp [hm, Ne.symm h]

lemma toFinset_keys_incrAssoc {β : Type} [Add β] (l : List (ℤ × β)) (uid : ℤ)
    (v : β) :
    ((incrAssoc l uid v).map Prod.fst).toFinset =
      insert uid (l.map Prod.fst).toFinset := by
  rw [keys_incrAssoc]
  by_cases hm : uid ∈ l.map Prod.fst
  · rw [if_pos hm, Finset.insert_eq_self.mpr (List.mem_toFinset.mpr hm)]
  · rw [if_neg hm]
    simp [List.toFinset_append, Finset.union_comm, Finset.insert_eq]

lemma nodup_keys_incrAssoc {β : Type} [Add β] (l : List (ℤ × β)) (uid : ℤ)
    (v : β) (h : (l.map Prod.fst).Nodup) :
    ((incrAssoc l uid v).map Prod.fst).Nodup := by
  rw [keys_incrAssoc]
  by_cases hm : uid ∈ l.map Prod.fst
  · rw [if_pos hm]; exact h
  · rw [if_neg hm]
    simp [List.nodup_append, h, hm]

lemma foldDanmu_roomDanmuCount (evs : List (DanmuEvent × ℤ)) (st : RedisState) :
    (evs.foldl (fun acc e => on_danmu e.1 e.2 acc) st).roomDanmuCount =
      st.roomDanmuCount + evs.length := by
  induction evs generalizing st with
  | nil => simp
  | cons e tl ih =>
      simp [List.foldl_cons, ih, on_danmu_roomDanmuCount]
      omega

lemma foldDanmu_keys_toFinset (evs : List (DanmuEvent × ℤ)) (st : RedisState) :
    (((evs.foldl (fun acc e => on_danmu e.1 e.2 acc) st).userDanmuCount.map
        Prod.fst).toFinset : Finset ℤ) =
      (st.userDanmuCount.map Prod.fst).toFinset ∪
        (evs.map fun e => e.1.uid).toFinset := by
  induction evs generalizing st with
  | nil => simp
  | cons e tl ih =>
      rw [List.foldl_cons, ih]
      rw [on_danmu_userDanmuCount, toFinset_keys_incrAssoc]
      simp [Finset.insert_union, Finset.union_insert]

lemma foldDanmu_keys_nodup (evs : List (DanmuEvent × ℤ)) (st : RedisState)
    (h : (st.userDanmuCount.map Prod.fst).Nodup) :
    ((evs.foldl (fun acc e => on_danmu e.1 e.2 acc) st).userDanmuCount.map
        Prod.fst).Nodup := by
  induction evs generalizing st with
  | nil => exact h
  | cons e tl ih =>
      rw [List.foldl_cons]
      apply ih
      rw [on_danmu_userDanmuCount]
      exact nodup_keys_incrAssoc _ _ _ h

lemma foldDanmu_userDanmuCount_length (evs : List (DanmuEvent × ℤ))
    (st : RedisState) (h0 : st.userDanmuCount = []) :
    (evs.foldl (fun acc e => on_danmu e.1 e.2 acc) st).userDanmuCount.length =
      ((evs.map fun e => e.1.uid).toFinset).card := by
  have hn : ((evs.foldl (fun acc e => on_danmu e.1 e.2 acc) st).userDanmuCount.map
      Prod.fst).Nodup := foldDanmu_keys_nodup evs st (by simp [h0])
  have ht := foldDanmu_keys_toFinset evs st
  rw [h0] at ht
  simp only [List.map_nil, List.toFinset_nil, Finset.empty_union] at ht
  calc (evs.foldl (fun acc e => on_danmu e.1 e.2 acc) st).userDanmuCount.length
      = ((evs.foldl (fun acc e => on_danmu e.1 e.2 acc) st).userDanmuCount.map
          Prod.fst).length := by rw [List.length_map]
    _ = ((evs.foldl (fun acc e => on_danmu e.1 e.2 acc) st).userDanmuCount.map
          Prod.fst).toFinset.card := (List.toFinset_card_of_nodup hn).symm
    _ = ((evs.map fun e => e.1.uid).toFinset).card := by rw [ht]

lemma rankingBlock_eq_none {β : Type} [LinearOrder β] (env : Env)
    (targets : List PushTarget) (item : ReportItem)
    (size : PushTarget → ℕ) (table : List (ℤ × β))
    (h : maxOver targets size = 0 ∨ revRange table (maxOver targets size) = []) :
    rankingBlock env targets item size table = none := by
  by_cases hg : anyLiveReportItemEnabled targets item
  · have hf : revRange table (maxOver targets size) = [] := by
      rcases h with h0 | he
      · simp [revRange, h0]
      · exact he
    simp [rankingBlock, hg, hf]
  · simp [rankingBlock, hg]

/-! Claim theorems. -/

/-- C1 (counterexample): at a reconnect reconciliation with persisted
status Off, fetched status Live, and the last recorded end time farther
in the past than the disconnect threshold (end time 0, now 1000,
threshold 60), the just-started notification fires — but
`accumulate_and_reset_data` runs as well, so the claim that the session
counters are NOT reset while the notification still fires is false: the
synthesized `{"data": {"live_time": 0}}` event passes the
`"live_time" in event["data"]` test and is handled as a full genuine
start. -/
theorem reconnect_live_start_cex :
    Effect.sendLiveOn ∈
      (on_link envDefault up0 "u" 2 true roomInfoLive 1000 emptyRedis).2.2.2 ∧
    Effect.accumulateAndReset ∈
      (on_link envDefault up0 "u" 2 true roomInfoLive 1000 emptyRedis).2.2.2 ∧
    ¬ (Effect.accumulateAndReset ∉
         (on_link envDefault up0 "u" 2 true roomInfoLive 1000 emptyRedis).2.2.2 ∧
       Effect.sendLiveOn ∈
         (on_link envDefault up0 "u" 2 true roomInfoLive 1000 emptyRedis).2.2.2) := by
  have hE : (on_link envDefault up0 "u" 2 true roomInfoLive 1000 emptyRedis).2.2.2 =
      [Effect.accumulateAndReset, Effect.sendLiveOnAt, Effect.sendLiveOn] := by
    norm_num [on_link, live_on, envDefault, roomInfoLive, emptyRedis, pyTruthyStr]
  rw [hE]
  refine ⟨by simp, by simp, ?_⟩
  rintro ⟨h1, _⟩
  exact h1 (by simp)

/-- C1 (amended): at a reconnect reconciliation with persisted status
Off and fetched status Live, exactly one live-start transition is
synthesized and handled like a genuine `LIVE` event; when the elapsed
time since the last recorded end time is within the disconnect
threshold it is treated as an encoder reconnect (no counter reset, no
just-started notification, at most the configured reconnect message);
otherwise `accumulate_and_reset_data` runs exactly once AND the
just-started notification is dispatched, and in neither case is a
live-end pipeline triggered. -/
theorem reconnect_live_start_reconciliation (env : Env) (up : Up) (uname : String)
    (roomId : ℤ) (roomInfo : RoomInfo) (now : ℤ) (s : RedisState)
    (hNow : roomInfo.liveStatus = 1) (hLast : s.liveStatus = 0) :
    (on_link env up uname roomId true roomInfo now s).2.2.2 =
      if now - s.liveEndTime ≤ env.upDisconnectConnectInterval then
        (if pyTruthyStr env.upDisconnectConnectMessage then
          [Effect.sendDisconnectMessage]
        else [])
      else [Effect.accumulateAndReset, Effect.sendLiveOnAt, Effect.sendLiveOn] := by
  by_cases hNear : now - s.liveEndTime ≤ env.upDisconnectConnectInterval <;>
    simp [on_link, live_on, hNow, hLast, hNear]

/-- Witness for C1 (amended) at persisted Off / fetched Live, end time
0, now 1000, threshold 60. -/
theorem reconnect_live_start_reconciliation_witness :
    roomInfoLive.liveStatus = 1 ∧ emptyRedis.liveStatus = 0 ∧
    (on_link envDefault up0 "u" 2 true roomInfoLive 1000 emptyRedis).2.2.2 =
      (if (1000 : ℤ) - emptyRedis.liveEndTime ≤ envDefault.upDisconnectConnectInterval then
        (if pyTruthyStr envDefault.upDisconnectConnectMessage then
          [Effect.sendDisconnectMessage]
        else [])
      else [Effect.accumulateAndReset, Effect.sendLiveOnAt, Effect.sendLiveOn]) :=
  ⟨rfl, rfl,
    reconnect_live_start_reconciliation envDefault up0 "u" 2 roomInfoLive 1000
      emptyRedis rfl rfl⟩

/-- C2: for every gift event, the derived revenue is
`round(discount_price / 1000 * quantity, 1)`, and the room revenue
counter, the per-user revenue counter and the gift-revenue time series
are updated by exactly that amount when both `total_coin ≠ 0` and
`discount_price ≠ 0`, and are left untouched otherwise; for
`discount_price = 1000, quantity = 3` the derived revenue is `3.0`. -/
theorem gift_revenue_derivation (ev : GiftEvent) (now : ℤ) (s : RedisState) :
    ((on_gift ev now s).roomGiftProfit =
      if ev.totalCoin ≠ 0 ∧ ev.discountPrice ≠ 0 then
        s.roomGiftProfit + pyRoundTo 1 (((ev.discountPrice : ℚ) / 1000) * (ev.num : ℚ))
      else s.roomGiftProfit) ∧
    ((on_gift ev now s).userGiftProfit =
      if ev.totalCoin ≠ 0 ∧ ev.discountPrice ≠ 0 then
        incrAssoc s.userGiftProfit ev.uid
          (pyRoundTo 1 (((ev.discountPrice : ℚ) / 1000) * (ev.num : ℚ)))
      else s.userGiftProfit) ∧
    ((on_gift ev now s).roomGiftTime =
      if ev.totalCoin ≠ 0 ∧ ev.discountPrice ≠ 0 then
        incrAssoc s.roomGiftTime now
          (pyRoundTo 1 (((ev.discountPrice : ℚ) / 1000) * (ev.num : ℚ)))
      else s.roomGiftTime) ∧
    pyRoundTo 1 (((1000 : ℚ) / 1000) * (3 : ℚ)) = 3 := by
  refine ⟨?_, ?_, ?_, by norm_num [pyRoundTo, rndHalfEven]⟩ <;>
  · unfold on_gift
    by_cases h : ev.totalCoin ≠ 0 ∧ ev.discountPrice ≠ 0 <;>
    by_cases hb : ev.blindGift = true <;>
    simp [h, hb]

/-- C3: for every mystery-box gift event, the derived profit is
`round(discount_price / 1000 * quantity - total_coin / 1000, 1)`,
accumulated into the room and per-user box-profit counters, with the
running room total appended to the box-profit diagram series; for
`total_coin = 5000, discount_price = 2000, quantity = 2` the profit is
`-1.0`. -/
theorem box_profit_derivation (ev : GiftEvent) (now : ℤ) (s : RedisState)
    (h : ev.blindGift = true) :
    ((on_gift ev now s).roomBoxProfit =
      s.roomBoxProfit +
        pyRoundTo 1 (((ev.discountPrice : ℚ) / 1000) * (ev.num : ℚ) -
          (ev.totalCoin : ℚ) / 1000)) ∧
    ((on_gift ev now s).userBoxProfit =
      incrAssoc s.userBoxProfit ev.uid
        (pyRoundTo 1 (((ev.discountPrice : ℚ) / 1000) * (ev.num : ℚ) -
          (ev.totalCoin : ℚ) / 1000))) ∧
    ((on_gift ev now s).roomBoxProfitRecord =
      s.roomBoxProfitRecord ++
        [s.roomBoxProfit +
          pyRoundTo 1 (((ev.discountPrice : ℚ) / 1000) * (ev.num : ℚ) -
            (ev.totalCoin : ℚ) / 1000)]) ∧
    pyRoundTo 1 (((2000 : ℚ) / 1000) * (2 : ℚ) - (5000 : ℚ) / 1000) = -1 := by
  refine ⟨?_, ?_, ?_, by norm_num [pyRoundTo, rndHalfEven]⟩ <;>
  · unfold on_gift
    by_cases hc : ev.totalCoin ≠ 0 ∧ ev.discountPrice ≠ 0 <;>
    simp [hc, h]

/-- Witness for C3 at the concrete mystery-box event of the claim. -/
theorem box_profit_derivation_witness :
    evC3.blindGift = true ∧
    ((on_gift evC3 9 emptyRedis).roomBoxProfit =
      emptyRedis.roomBoxProfit +
        pyRoundTo 1 (((evC3.discountPrice : ℚ) / 1000) * (evC3.num : ℚ) -
          (evC3.totalCoin : ℚ) / 1000)) ∧
    pyRoundTo 1 (((2000 : ℚ) / 1000) * (2 : ℚ) - (5000 : ℚ) / 1000) = -1 :=
  ⟨rfl, (box_profit_derivation evC3 9 emptyRedis rfl).1,
    (box_profit_derivation evC3 9 emptyRedis rfl).2.2.2⟩

/-- C4: the session-end report's percentile standing is
`round(round(rank / count, 4) * 100, 2)` when `count ≠ 0` and `100`
when `count = 0`, with the two rounding stages in exactly that order;
`rank = 5, count = 20` yields `25.0`, and on an empty history the
percent is `100`. -/
theorem report_percentile_formula (env : Env) (up : Up) (uname : String)
    (roomId : ℤ) (roomInfo : RoomInfo) (s : RedisState) :
    ((generateLiveReportParam env up uname roomId roomInfo s).1.box_beat_percent =
      if s.boxProfitHistory.length ≠ 0 then
        pyRoundTo 2
          (pyRoundTo 4
            ((rankOfScore
                (s.boxProfitHistory ++
                  [{ startTime := s.liveStartTime, uid := up.uid, uname := uname,
                     profit := s.roomBoxProfit }])
                s.roomBoxProfit : ℚ) /
              (s.boxProfitHistory.length : ℚ)) * 100)
      else 100) ∧
    pyRoundTo 2 (pyRoundTo 4 ((5 : ℚ) / 20) * 100) = 25 ∧
    (generateLiveReportParam envDefault up0 "u" 2 roomInfoLive
      emptyRedis).1.box_beat_percent = 100 := by
  refine ⟨rfl, by norm_num [pyRoundTo, rndHalfEven], rfl⟩

/-- C5: each chat event increments the room chat counter and the
sender's per-user counter by 1, and a scripted sequence of a genuine
session start, ten chat events from exactly three distinct user ids,
and a session end dispatches a report with `danmu_count = 10` and
`danmu_person_count = 3`, read back from exactly those accumulated
totals. -/
theorem danmu_round_trip (env : Env) (up : Up) (uname : String) (roomId : ℤ)
    (roomInfo : RoomInfo) (t0 now1 now2 : ℤ) (s : RedisState)
    (evs : List (DanmuEvent × ℤ))
    (hReg : danmuHandlerRegistered env up.targets = true)
    (hFar : ¬(now1 - s.liveEndTime ≤ env.upDisconnectConnectInterval))
    (hLen : evs.length = 10)
    (hDistinct : ((evs.map fun e => e.1.uid).toFinset).card = 3) :
    (∀ ev t st, (on_danmu ev t st).roomDanmuCount = st.roomDanmuCount + 1 ∧
        (on_danmu ev t st).userDanmuCount = incrAssoc st.userDanmuCount ev.uid 1) ∧
    ∃ p, (live_off env up
          (live_on env roomInfo now1 { liveTimeKey := some t0 } uname s).1
          roomId roomInfo now2
          (evs.foldl (fun acc e => dispatchDanmu env up.targets e.1 e.2 acc)
            (live_on env roomInfo now1 { liveTimeKey := some t0 } uname s).2.1)).2 =
        [Effect.sendLiveOff, Effect.sendLiveReport p] ∧
      p.danmu_count = 10 ∧ p.danmu_person_count = 3 := by
  refine ⟨fun ev t st =>
    ⟨on_danmu_roomDanmuCount ev t st, on_danmu_userDanmuCount ev t st⟩, ?_⟩
  have hfun : (fun acc e => dispatchDanmu env up.targets e.1 e.2 acc) =
      (fun acc (e : DanmuEvent × ℤ) => on_danmu e.1 e.2 acc) := by
    funext acc e
    simp [dispatchDanmu, hReg]
  set s1 := (live_on env roomInfo now1 { liveTimeKey := some t0 } uname s).2.1 with hs1
  have hs1count : s1.roomDanmuCount = 0 := by
    simp [hs1, live_on, hFar, resetData]
  have hs1user : s1.userDanmuCount = [] := by
    simp [hs1, live_on, hFar, resetData]
  set s2 := evs.foldl (fun acc e => dispatchDanmu env up.targets e.1 e.2 acc) s1 with hs2
  have h10 : s2.roomDanmuCount = 10 := by
    rw [hs2, hfun, foldDanmu_roomDanmuCount, hs1count, hLen]
  have h3 : s2.userDanmuCount.length = 3 := by
    rw [hs2, hfun, foldDanmu_userDanmuCount_length evs s1 hs1user, hDistinct]
  refine ⟨(generateLiveReportParam env up
      (live_on env roomInfo now1 { liveTimeKey := some t0 } uname s).1 roomId roomInfo
      { s2 with liveStatus := 0, liveEndTime := now2 }).1, rfl, ?_, ?_⟩
  · exact h10
  · exact h3

/-- Witness for C5 on the concrete ten-event script `evsC5`. -/
theorem danmu_round_trip_witness :
    danmuHandlerRegistered envDefault up0.targets = true ∧
    ¬((1000 : ℤ) - emptyRedis.liveEndTime ≤ envDefault.upDisconnectConnectInterval) ∧
    evsC5.length = 10 ∧
    ((evsC5.map fun e => e.1.uid).toFinset).card = 3 ∧
    (∃ p, (live_off envDefault up0
          (live_on envDefault roomInfoLive 1000 { liveTimeKey := some 900 } "u" emptyRedis).1
          2 roomInfoLive 2000
          (evsC5.foldl (fun acc e => dispatchDanmu envDefault up0.targets e.1 e.2 acc)
            (live_on envDefault roomInfoLive 1000 { liveTimeKey := some 900 } "u" emptyRedis).2.1)).2 =
        [Effect.sendLiveOff, Effect.sendLiveReport p] ∧
      p.danmu_count = 10 ∧ p.danmu_person_count = 3) :=
  ⟨rfl, by decide, rfl, by decide,
    (danmu_round_trip envDefault up0 "u" 2 roomInfoLive 900 1000 2000 emptyRedis evsC5
      rfl (by decide) rfl (by decide)).2⟩

/-- C6: for each ranking category of the report (chat, box count, box
profit, gift, super chat), when the maximum requested size over all
destinations is 0 or the fetched ranking is empty, the corresponding
faces/unames/counts fields are absent from the report (`none`), not
present with empty values. -/
theorem empty_ranking_fields_absent (env : Env) (up : Up) (uname : String)
    (roomId : ℤ) (roomInfo : RoomInfo) (s : RedisState) :
    ((maxOver up.targets (fun t => t.live_report.danmu_ranking) = 0 ∨
        revRange s.userDanmuCount
          (maxOver up.targets (fun t => t.live_report.danmu_ranking)) = []) →
      (generateLiveReportParam env up uname roomId roomInfo s).1.danmu_ranking = none) ∧
    ((maxOver up.targets (fun t => t.live_report.box_ranking) = 0 ∨
        revRange s.userBoxCount
          (maxOver up.targets (fun t => t.live_report.box_ranking)) = []) →
      (generateLiveReportParam env up uname roomId roomInfo s).1.box_ranking = none) ∧
    ((maxOver up.targets (fun t => t.live_report.box_profit_ranking) = 0 ∨
        revRange s.userBoxProfit
          (maxOver up.targets (fun t => t.live_report.box_profit_ranking)) = []) →
      (generateLiveReportParam env up uname roomId roomInfo s).1.box_profit_ranking = none) ∧
    ((maxOver up.targets (fun t => t.live_report.gift_ranking) = 0 ∨
        revRange s.userGiftProfit
          (maxOver up.targets (fun t => t.live_report.gift_ranking)) = []) →
      (generateLiveReportParam env up uname roomId roomInfo s).1.gift_ranking = none) ∧
    ((maxOver up.targets (fun t => t.live_report.sc_ranking) = 0 ∨
        revRange s.userScProfit
          (maxOver up.targets (fun t => t.live_report.sc_ranking)) = []) →
      (generateLiveReportParam env up uname roomId roomInfo s).1.sc_ranking = none) := by
  refine ⟨fun h => ?_, fun h => ?_, fun h => ?_, fun h => ?_, fun h => ?_⟩ <;>
    exact rankingBlock_eq_none env up.targets _ _ _ h

/-- Witness for C6 with no destinations, hence every requested ranking
size 0. -/
theorem empty_ranking_fields_absent_witness :
    maxOver up0.targets (fun t => t.live_report.danmu_ranking) = 0 ∧
    (generateLiveReportParam envDefault up0 "u" 2 roomInfoLive emptyRedis).1.danmu_ranking = none ∧
    (generateLiveReportParam envDefault up0 "u" 2 roomInfoLive emptyRedis).1.box_ranking = none ∧
    (generateLiveReportParam envDefault up0 "u" 2 roomInfoLive emptyRedis).1.box_profit_ranking = none ∧
    (generateLiveReportParam envDefault up0 "u" 2 roomInfoLive emptyRedis).1.gift_ranking = none ∧
    (generateLiveReportParam envDefault up0 "u" 2 roomInfoLive emptyRedis).1.sc_ranking = none :=
  ⟨rfl,
    (empty_ranking_fields_absent envDefault up0 "u" 2 roomInfoLive emptyRedis).1 (Or.inl rfl),
    (empty_ranking_fields_absent envDefault up0 "u" 2 roomInfoLive emptyRedis).2.1 (Or.inl rfl),
    (empty_ranking_fields_absent envDefault up0 "u" 2 roomInfoLive emptyRedis).2.2.1 (Or.inl rfl),
    (empty_ranking_fields_absent envDefault up0 "u" 2 roomInfoLive emptyRedis).2.2.2.1 (Or.inl rfl),
    (empty_ranking_fields_absent envDefault up0 "u" 2 roomInfoLive emptyRedis).2.2.2.2 (Or.inl rfl)⟩

/-- C7: the report's duration fields satisfy
`hour * 3600 + minute * 60 + second = end_time - start_time` with
`0 ≤ second < 60` and `0 ≤ minute < 60`, by the nested divmod
decomposition. -/
theorem report_duration_decomposition (env : Env) (up : Up) (uname : String)
    (roomId : ℤ) (roomInfo : RoomInfo) (s : RedisState)
    (_hNonneg : 0 ≤ s.liveEndTime - s.liveStartTime) :
    (let p := (generateLiveReportParam env up uname roomId roomInfo s).1
     p.hour * 3600 + p.minute * 60 + p.second = s.liveEndTime - s.liveStartTime ∧
     0 ≤ p.second ∧ p.second < 60 ∧ 0 ≤ p.minute ∧ p.minute < 60) := by
  have h1 := Int.fdiv_add_fmod (s.liveEndTime - s.liveStartTime) 60
  have h2 := Int.fdiv_add_fmod ((s.liveEndTime - s.liveStartTime).fdiv 60) 60
  refine ⟨by dsimp [generateLiveReportParam]; linarith,
    Int.fmod_nonneg' _ (by norm_num),
    Int.fmod_lt_of_pos _ (by norm_num),
    Int.fmod_nonneg' _ (by norm_num),
    Int.fmod_lt_of_pos _ (by norm_num)⟩

/-- Witness for C7 on a 3725 second session. -/
theorem report_duration_decomposition_witness :
    (0 : ℤ) ≤ sDur.liveEndTime - sDur.liveStartTime ∧
    (let p := (generateLiveReportParam envDefault up0 "u" 2 roomInfoLive sDur).1
     p.hour * 3600 + p.minute * 60 + p.second = sDur.liveEndTime - sDur.liveStartTime ∧
     0 ≤ p.second ∧ p.second < 60 ∧ 0 ≤ p.minute ∧ p.minute < 60) :=
  ⟨by norm_num [sDur, emptyRedis],
    report_duration_decomposition envDefault up0 "u" 2 roomInfoLive sDur
      (by norm_num [sDur, emptyRedis])⟩

/-- C8: when `uname` or `room_id` is not yet known and the metadata
client reports no broadcast room, `connect` fails with the
configuration error instead of opening a feed connection, registering
handlers, or silently skipping the room. -/
theorem connect_missing_room_raises (env : Env) (up : Up) (userInfo : UserInfo)
    (h : up.uname = none ∨ up.room_id = none) (hr : userInfo.liveRoom = none) :
    connect env up userInfo = .error .noLiveRoom := by
  have hb : (pyTruthyStr up.uname && pyTruthyInt up.room_id) = false := by
    rcases h with h0 | h0 <;> simp [h0, pyTruthyStr, pyTruthyInt]
  unfold connect
  simp [hb, hr]

/-- Witness for C8 on a broadcaster with unresolved name and room. -/
theorem connect_missing_room_raises_witness :
    (up0.uname = none ∨ up0.room_id = none) ∧
    connect envDefault up0 { name := "n", liveRoom := none } = .error .noLiveRoom :=
  ⟨Or.inl rfl,
    connect_missing_room_raises envDefault up0 { name := "n", liveRoom := none }
      (Or.inl rfl) rfl⟩

/-- C9: equality on `Up` is determined solely by uid — equal to another
`Up` iff the uids agree, equal to an `int` iff the uid equals it,
`False` against any other type — and the hash is the hash of the uid,
so equal values have equal hashes regardless of targets, uname and
room id. -/
theorem up_eq_hash_by_uid (h : ℤ → ℤ) (a b : Up) (n : ℤ) :
    (upEqPy a (.up b) = true ↔ a.uid = b.uid) ∧
    (upEqPy a (.int n) = true ↔ a.uid = n) ∧
    upEqPy a .other = false ∧
    upHashPy h a = h a.uid ∧
    (upEqPy a (.up b) = true → upHashPy h a = upHashPy h b) := by
  refine ⟨by simp [upEqPy], by simp [upEqPy], rfl, rfl, ?_⟩
  intro he
  have : a.uid = b.uid := by simpa [upEqPy] using he
  simp [upHashPy, this]

/-- Witness for C9 on two `Up` values sharing only the uid. -/
theorem up_eq_hash_by_uid_witness :
    upEqPy up9a (.up up9b) = true ∧
    upHashPy id up9a = upHashPy id up9b ∧
    upEqPy up9a (.int 42) = true ∧
    upEqPy up9a .other = false :=
  ⟨(up_eq_hash_by_uid id up9a up9b 42).1.mpr rfl,
    (up_eq_hash_by_uid id up9a up9b 42).2.2.2.2
      ((up_eq_hash_by_uid id up9a up9b 42).1.mpr rfl),
    (up_eq_hash_by_uid id up9a up9b 42).2.1.mpr rfl,
    (up_eq_hash_by_uid id up9a up9b 42).2.2.1⟩

/-- C10: the membership-purchase handler maps the raw tier label
through the fixed three-entry table 舰长→Captain, 提督→Commander,
总督→Governor; for a label outside the table the lookup fails before
any counter or time-series update (the handler aborts with the lookup
error and no new store state), and for a label in the table the tier
counters are incremented by the purchased months and the guard time
bucket is bumped. -/
theorem guard_tier_table_safety (ev : GuardEvent) (now : ℤ) (s : RedisState) :
    typeMapping "舰长" = some .captain ∧
    typeMapping "提督" = some .commander ∧
    typeMapping "总督" = some .governor ∧
    (ev.giftName ≠ "舰长" → ev.giftName ≠ "提督" → ev.giftName ≠ "总督" →
      typeMapping ev.giftName = none ∧ on_guard ev now s = .error ()) ∧
    (∀ lv, typeMapping ev.giftName = some lv →
      on_guard ev now s = .ok
        { incrUserGuard lv ev.uid ev.month (incrRoomGuard lv ev.month s) with
            roomGuardTime :=
              incrAssoc
                (incrUserGuard lv ev.uid ev.month (incrRoomGuard lv ev.month s)).roomGuardTime
                now ev.month }) := by
  refine ⟨rfl, rfl, rfl, ?_, ?_⟩
  · intro h1 h2 h3
    have hm : typeMapping ev.giftName = none := by simp [typeMapping, h1, h2, h3]
    exact ⟨hm, by unfold on_guard; rw [hm]⟩
  · intro lv hlv
    unfold on_guard
    rw [hlv]

/-- Witness for C10 on an unknown label and on 舰长. -/
theorem guard_tier_table_safety_witness :
    on_guard { uid := 5, giftName := "皇帝", month := 3 } 9 emptyRedis = .error () ∧
    on_guard { uid := 5, giftName := "舰长", month := 3 } 9 emptyRedis = .ok
      { incrUserGuard .captain 5 3 (incrRoomGuard .captain 3 emptyRedis) with
          roomGuardTime :=
            incrAssoc
              (incrUserGuard .captain 5 3 (incrRoomGuard .captain 3 emptyRedis)).roomGuardTime
              9 3 } :=
  ⟨((guard_tier_table_safety { uid := 5, giftName := "皇帝", month := 3 } 9
      emptyRedis).2.2.2.1 (by decide) (by decide) (by decide)).2,
    (guard_tier_table_safety { uid := 5, giftName := "舰长", month := 3 } 9
      emptyRedis).2.2.2.2 .captain rfl⟩

end StarBot
